import Mathlib

/-!
Shallow embedding of the `fcm-notification` crate (`src/main.rs`), a client
that loads Google service-account credentials, exchanges a signed JWT
assertion for an OAuth2 bearer token, and submits an FCM notification-send
request.

External collaborators (filesystem, JSON text parsing, RSA/JWT signing, the
HTTP transport and the remote endpoints' responses) are modelled as explicit
inputs: an `Env` record carries the outcome each collaborator would produce,
and the embedded operations consume it.  The embedded functions record the
HTTP requests they submit, so theorems can speak about the wire traffic.
-/

namespace Fcm

/-- JSON values, as produced by `serde_json` (`serde_json::Value`).
Objects are association lists in document order. -/
inductive Json where
  | null : Json
  | bool (b : Bool) : Json
  | num (n : Int) : Json
  | str (s : String) : Json
  | arr (xs : List Json) : Json
  | obj (kvs : List (String × Json)) : Json
deriving Repr

/-- `serde_json`'s `Value::Index` for a string key (`response["access_token"]`):
on an object, the value at the key or `Null` when absent; `Null` on any
non-object. -/
def jsonIndex (j : Json) (k : String) : Json :=
  match j with
  | .obj kvs => (kvs.lookup k).getD .null
  | _ => .null

/-- `serde_json::Value::as_str`: `Some` exactly on JSON strings. -/
def Json.asStr : Json → Option String
  | .str s => some s
  | _ => none

/-- Whether a JSON object carries the key `k` (non-objects carry no keys). -/
def Json.hasKey (j : Json) (k : String) : Bool :=
  match j with
  | .obj kvs => kvs.any (fun kv => kv.1 == k)
  | _ => false

/-- The `ServiceAccount` record of `main.rs` (the Rust field `account_type`
is serialized from the JSON key `"type"`). -/
structure ServiceAccount where
  account_type : String
  project_id : String
  private_key_id : String
  private_key : String
  client_email : String
  client_id : String
  auth_uri : String
  token_uri : String
  auth_provider_x509_cert_url : String
  client_x509_cert_url : String
  universe_domain : String
deriving Repr, DecidableEq

/-- The `NotificationPayload` record of `main.rs`: device token, title, body
and optional structured data. -/
structure NotificationPayload where
  token : String
  title : String
  body : String
  data : Option Json
deriving Repr

/-- The `FcmError` taxonomy of `main.rs`.  Only `NotificationError` carries
detail the claims inspect (the raw response body text); the payloads of the
other variants are wrapped source errors irrelevant here. -/
inductive FcmError where
  | FileReadError : FcmError
  | JsonParseError : FcmError
  | JwtEncodeError : FcmError
  | HttpError : FcmError
  | AccessTokenNotFound : FcmError
  | NotificationError (detail : String) : FcmError
deriving Repr, DecidableEq

/-- The string value at key `k` of an object body, as serde's struct
deserializer reads a `String` field: present and a JSON string, else failure. -/
def getStrField (kvs : List (String × Json)) (k : String) : Option String :=
  match kvs.lookup k with
  | some (Json.str s) => some s
  | _ => none

/-- `serde_json::from_str::<ServiceAccount>` on an already-syntactically-parsed
document: the top level must be an object, each of the eleven required fields
must be present with a string value (the JSON key `"type"` fills
`account_type`), unknown keys are ignored.  Any violation is a parse error
(`none`). -/
def deserializeServiceAccount (j : Json) : Option ServiceAccount :=
  match j with
  | .obj kvs => do
    let account_type ← getStrField kvs "type"
    let project_id ← getStrField kvs "project_id"
    let private_key_id ← getStrField kvs "private_key_id"
    let private_key ← getStrField kvs "private_key"
    let client_email ← getStrField kvs "client_email"
    let client_id ← getStrField kvs "client_id"
    let auth_uri ← getStrField kvs "auth_uri"
    let token_uri ← getStrField kvs "token_uri"
    let auth_provider_x509_cert_url ← getStrField kvs "auth_provider_x509_cert_url"
    let client_x509_cert_url ← getStrField kvs "client_x509_cert_url"
    let universe_domain ← getStrField kvs "universe_domain"
    pure { account_type, project_id, private_key_id, private_key, client_email,
           client_id, auth_uri, token_uri, auth_provider_x509_cert_url,
           client_x509_cert_url, universe_domain }
  | _ => none

/-- The `FcmNotificationService` struct: the loaded credentials (the
`reqwest::Client` handle carries no observable state and is omitted). -/
structure FcmNotificationService where
  service_account : ServiceAccount
deriving Repr, DecidableEq

/-- `FcmNotificationService::new`.  The external read+parse outcome is the
input: `none` models `fs::read_to_string` failing (I/O error), `some none`
models text that is not syntactically valid JSON, and `some (some j)` a
successful read of the syntactically valid document `j`, which is then
deserialized into a `ServiceAccount`. -/
def FcmNotificationService.new (readResult : Option (Option Json)) :
    Except FcmError FcmNotificationService :=
  match readResult with
  | none => .error .FileReadError
  | some none => .error .JsonParseError
  | some (some j) =>
    match deserializeServiceAccount j with
    | none => .error .JsonParseError
    | some sa => .ok ⟨sa⟩

/-- A `chrono` instant: whole seconds since the epoch plus sub-second
nanoseconds (a well-formed instant has `nanos < 1000000000`). -/
structure ChronoTime where
  secs : Int
  nanos : Nat
deriving Repr, DecidableEq

/-- `chrono::DateTime::timestamp`: whole seconds since the epoch. -/
def ChronoTime.timestamp (t : ChronoTime) : Int := t.secs

/-- Adding a `chrono::Duration` of `dSecs` seconds and `dNanos` nanoseconds
to an instant, carrying nanosecond overflow into the seconds. -/
def ChronoTime.addDuration (t : ChronoTime) (dSecs : Int) (dNanos : Nat) : ChronoTime :=
  let n := t.nanos + dNanos
  if 1000000000 ≤ n then ⟨t.secs + dSecs + 1, n - 1000000000⟩
  else ⟨t.secs + dSecs, n⟩

/-- The JWT `Claims` struct built inside `get_access_token`. -/
structure Claims where
  iss : String
  scope : String
  aud : String
  exp : Int
  iat : Int
deriving Repr, DecidableEq

/-- The claims `get_access_token` builds from the service account and the
current wall-clock instant: `iss` is the client email, `scope` and `aud` are
fixed strings, `exp` is the timestamp one hour (`chrono::Duration::hours(1)`)
after `now`, and `iat` the timestamp of `now`. -/
def buildClaims (sa : ServiceAccount) (now : ChronoTime) : Claims :=
  { iss := sa.client_email
    scope := "https://www.googleapis.com/auth/firebase.messaging"
    aud := "https://oauth2.googleapis.com/token"
    exp := (now.addDuration 3600 0).timestamp
    iat := now.timestamp }

/-- The body of an outgoing HTTP request: a form-encoded parameter list
(token exchange) or a JSON document (notification send). -/
inductive ReqBody where
  | form (params : List (String × String)) : ReqBody
  | jsonBody (v : Json) : ReqBody
deriving Repr

/-- An outgoing HTTP request as the client assembles it. -/
structure HttpRequest where
  method : String
  url : String
  headers : List (String × String)
  body : ReqBody
deriving Repr

/-- The token-exchange request: POST of the form-encoded grant to the fixed
Google OAuth2 token endpoint. -/
def tokenRequest (jwt : String) : HttpRequest :=
  { method := "POST"
    url := "https://oauth2.googleapis.com/token"
    headers := []
    body := .form [("grant_type", "urn:ietf:params:oauth:grant-type:jwt-bearer"),
                   ("assertion", jwt)] }

/-- The FCM send endpoint with the project identifier interpolated. -/
def sendUrl (projectId : String) : String :=
  "https://fcm.googleapis.com/v1/projects/" ++ projectId ++ "/messages:send"

/-- `http::StatusCode::is_success`: 2xx statuses. -/
def statusIsSuccess (s : Nat) : Bool :=
  decide (200 ≤ s) && decide (s < 300)

/-- The wire body `send_notification` builds with the `json!` macro.  The
`data` entry serializes the `Option` as serde does inside `json!`: `None`
becomes JSON `null` (the struct-level `skip_serializing_if` attribute does
not apply here, since the payload struct itself is never serialized). -/
def wireBody (p : NotificationPayload) : Json :=
  .obj [("message", .obj
    [ ("token", .str p.token),
      ("notification", .obj [("title", .str p.title), ("body", .str p.body)]),
      ("data", match p.data with | none => .null | some d => d) ])]

/-- Outcomes of the external collaborators during one send call:
`rsaPemOk` is whether `EncodingKey::from_rsa_pem` accepts the given PEM text;
`sign` is the compact JWT `jsonwebtoken::encode` produces for the claims
(`none` = signing failure); `tokenHttpOk` is the transport outcome of the
token round-trip; `tokenBody` the token endpoint's response decoded as JSON
(`none` = the `.json()` decode fails); `sendHttpOk` the transport outcome of
the send round-trip; `sendStatus` and `sendBody` the send response's HTTP
status and raw body text. -/
structure Env where
  now : ChronoTime
  rsaPemOk : String → Bool
  sign : Claims → Option String
  tokenHttpOk : Bool
  tokenBody : Option Json
  sendHttpOk : Bool
  sendStatus : Nat
  sendBody : String

/-- `get_access_token`:  build claims, parse the PEM key, sign, POST the
grant to the token endpoint, decode the response as JSON and extract the
`"access_token"` string field.  Returns the submitted requests alongside the
result; every fallible step maps to its `FcmError` variant exactly as the
`?`-conversions in the source do. -/
def get_access_token (env : Env) (sa : ServiceAccount) :
    List HttpRequest × Except FcmError String :=
  let claims := buildClaims sa env.now
  if env.rsaPemOk sa.private_key then
    match env.sign claims with
    | none => ([], .error .JwtEncodeError)
    | some jwt =>
      let req := tokenRequest jwt
      if env.tokenHttpOk then
        match env.tokenBody with
        | none => ([req], .error .HttpError)
        | some body =>
          match (jsonIndex body "access_token").asStr with
          | some tok => ([req], .ok tok)
          | none => ([req], .error .AccessTokenNotFound)
      else ([req], .error .HttpError)
  else ([], .error .JwtEncodeError)

/-- `send_notification`: acquire a fresh access token, build the wire body
and the bearer-authenticated POST to the project's `messages:send` endpoint,
submit it, and map the response: 2xx is success (the body is not read),
otherwise `NotificationError` carrying the raw response body text. -/
def send_notification (env : Env) (svc : FcmNotificationService)
    (p : NotificationPayload) : List HttpRequest × Except FcmError Unit :=
  match get_access_token env svc.service_account with
  | (reqs, .error e) => (reqs, .error e)
  | (reqs, .ok tok) =>
    let req : HttpRequest :=
      { method := "POST"
        url := sendUrl svc.service_account.project_id
        headers := [("Authorization", "Bearer " ++ tok),
                    ("Content-Type", "application/json")]
        body := .jsonBody (wireBody p) }
    if env.sendHttpOk then
      if statusIsSuccess env.sendStatus then
        (reqs ++ [req], .ok ())
      else
        (reqs ++ [req], .error (.NotificationError env.sendBody))
    else (reqs ++ [req], .error .HttpError)

/-- A ServiceAccount JSON document with the eleven required keys, in the
canonical order, each bound to a string value. -/
def mkSADoc (ty pid kid key em cid au tu apc cxc ud : String) : Json :=
  .obj [("type", .str ty), ("project_id", .str pid),
        ("private_key_id", .str kid), ("private_key", .str key),
        ("client_email", .str em), ("client_id", .str cid),
        ("auth_uri", .str au), ("token_uri", .str tu),
        ("auth_provider_x509_cert_url", .str apc),
        ("client_x509_cert_url", .str cxc), ("universe_domain", .str ud)]

/-! Concrete fixtures used by the witnesses. -/

/-- A concrete loaded service account. -/
def sa0 : ServiceAccount :=
  ⟨"service_account", "demo-project", "kid1", "PEMDATA",
   "svc@demo.iam.gserviceaccount.com", "123456",
   "https://accounts.google.com/o/oauth2/auth",
   "https://oauth2.googleapis.com/token", "apcurl", "cxcurl", "googleapis.com"⟩

/-- A client holding `sa0`. -/
def svc0 : FcmNotificationService := ⟨sa0⟩

/-- A concrete payload without structured data. -/
def p0 : NotificationPayload := ⟨"devtok", "hello", "world", none⟩

/-- Environment whose token endpoint answers with a body lacking
`access_token`. -/
def envNoToken : Env :=
  { now := ⟨1700000000, 0⟩
    rsaPemOk := fun _ => true
    sign := fun _ => some "signed.jwt"
    tokenHttpOk := true
    tokenBody := some (.obj [("error", .str "invalid_grant")])
    sendHttpOk := true
    sendStatus := 200
    sendBody := "" }

/-- Environment whose token endpoint returns token `"T"` and whose send
endpoint answers with the given status and body. -/
def envSend (status : Nat) (body : String) : Env :=
  { now := ⟨1700000000, 0⟩
    rsaPemOk := fun _ => true
    sign := fun _ => some "signed.jwt"
    tokenHttpOk := true
    tokenBody := some (.obj [("access_token", .str "T")])
    sendHttpOk := true
    sendStatus := status
    sendBody := body }

/-- Environment whose PEM parser rejects every key. -/
def envBadKey : Env :=
  { now := ⟨1700000000, 0⟩
    rsaPemOk := fun _ => false
    sign := fun _ => none
    tokenHttpOk := true
    tokenBody := none
    sendHttpOk := true
    sendStatus := 200
    sendBody := "" }

/-- A concrete credential document: the eleven required fields plus one
unknown key, which serde ignores. -/
def kvs0 : List (String × Json) :=
  [("type", .str "service_account"), ("project_id", .str "demo-project"),
   ("private_key_id", .str "kid1"), ("private_key", .str "PEMDATA"),
   ("client_email", .str "svc@demo.iam.gserviceaccount.com"),
   ("client_id", .str "123456"),
   ("auth_uri", .str "https://accounts.google.com/o/oauth2/auth"),
   ("token_uri", .str "https://oauth2.googleapis.com/token"),
   ("auth_provider_x509_cert_url", .str "apcurl"),
   ("client_x509_cert_url", .str "cxcurl"),
   ("universe_domain", .str "googleapis.com"),
   ("extra", .num 1)]

/-! The claims. -/

/-- Claim C1 is refuted by the code: for a payload whose `data` is absent,
the wire body built by `send_notification` does NOT omit the `"data"` key —
the `message` object contains the key `"data"`, bound to JSON `null`.  The
`json!` macro serializes the `Option` field as `null`; the
`skip_serializing_if` attribute on `NotificationPayload.data` (the code's own
statement of intent that absent data be omitted) is bypassed because the
payload struct itself is never serialized. -/
theorem wireBody_data_none_is_null :
    Json.hasKey (jsonIndex (wireBody ⟨"devtok", "hello", "world", none⟩) "message")
      "data" = true ∧
    jsonIndex (jsonIndex (wireBody ⟨"devtok", "hello", "world", none⟩) "message")
      "data" = Json.null :=
  ⟨rfl, rfl⟩

/-- Claim C2: for every issued-at instant (with well-formed sub-second
nanoseconds), the assertion claims built during token acquisition have
`exp` equal to `iat` plus exactly 3600 seconds. -/
theorem claims_exp_eq_iat_add_3600 (sa : ServiceAccount) (now : ChronoTime)
    (h : now.nanos < 1000000000) :
    (buildClaims sa now).exp = (buildClaims sa now).iat + 3600 := by
  simp only [buildClaims, ChronoTime.addDuration]
  split
  · simp only [ChronoTime.timestamp]
    omega
  · simp only [ChronoTime.timestamp]

/-- Witness for C2 at a concrete instant. -/
theorem claims_exp_eq_iat_add_3600_witness :
    (0 : Nat) < 1000000000 ∧
    (buildClaims sa0 ⟨1700000000, 0⟩).exp = (buildClaims sa0 ⟨1700000000, 0⟩).iat + 3600 :=
  ⟨by decide, claims_exp_eq_iat_add_3600 sa0 ⟨1700000000, 0⟩ (by decide)⟩

/-- Claim C3: when the token-exchange response body is a JSON document in
which `"access_token"` is absent or not a string, `send_notification` fails
with `AccessTokenNotFound`, and the request trace holds only the token
request — the send request is never built or submitted. -/
theorem missing_access_token_aborts_send
    (env : Env) (svc : FcmNotificationService) (p : NotificationPayload)
    (jwt : String) (body : Json)
    (hpem : env.rsaPemOk svc.service_account.private_key = true)
    (hsign : env.sign (buildClaims svc.service_account env.now) = some jwt)
    (hhttp : env.tokenHttpOk = true)
    (hbody : env.tokenBody = some body)
    (hmiss : (jsonIndex body "access_token").asStr = none) :
    send_notification env svc p =
      ([tokenRequest jwt], .error FcmError.AccessTokenNotFound) := by
  simp [send_notification, get_access_token, hpem, hsign, hhttp, hbody, hmiss]

/-- Witness for C3: a token body `{"error": "invalid_grant"}` aborts the
call with `AccessTokenNotFound` after only the token request. -/
theorem missing_access_token_aborts_send_witness :
    send_notification envNoToken svc0 p0 =
      ([tokenRequest "signed.jwt"], .error FcmError.AccessTokenNotFound) :=
  missing_access_token_aborts_send envNoToken svc0 p0 "signed.jwt"
    (.obj [("error", .str "invalid_grant")]) rfl rfl rfl rfl rfl

/-- Claim C4: once the send request has been submitted, a 2xx status yields
success with no parsed response body, and any other status yields
`NotificationError` carrying the full raw response body text. -/
theorem send_response_status_determines_result
    (env : Env) (svc : FcmNotificationService) (p : NotificationPayload)
    (jwt tok : String) (body : Json)
    (hpem : env.rsaPemOk svc.service_account.private_key = true)
    (hsign : env.sign (buildClaims svc.service_account env.now) = some jwt)
    (hhttp : env.tokenHttpOk = true)
    (hbody : env.tokenBody = some body)
    (htok : (jsonIndex body "access_token").asStr = some tok)
    (hsend : env.sendHttpOk = true) :
    (200 ≤ env.sendStatus ∧ env.sendStatus < 300 →
      (send_notification env svc p).2 = .ok ()) ∧
    (¬(200 ≤ env.sendStatus ∧ env.sendStatus < 300) →
      (send_notification env svc p).2 =
        .error (FcmError.NotificationError env.sendBody)) := by
  constructor <;> intro hst
  · have hs : statusIsSuccess env.sendStatus = true := by
      simp only [statusIsSuccess, Bool.and_eq_true, decide_eq_true_eq]
      omega
    simp [send_notification, get_access_token,
          hpem, hsign, hhttp, hbody, htok, hsend, hs]
  · have hs : statusIsSuccess env.sendStatus = false := by
      simp only [statusIsSuccess, Bool.and_eq_false_iff, decide_eq_false_iff_not]
      omega
    simp [send_notification, get_access_token,
          hpem, hsign, hhttp, hbody, htok, hsend, hs]

/-- Witness for C4: HTTP 200 gives success; HTTP 403 with body
`"quota exceeded"` gives `NotificationError "quota exceeded"`. -/
theorem send_response_status_determines_result_witness :
    (send_notification (envSend 200 "") svc0 p0).2 = .ok () ∧
    (send_notification (envSend 403 "quota exceeded") svc0 p0).2 =
      .error (FcmError.NotificationError "quota exceeded") :=
  ⟨(send_response_status_determines_result (envSend 200 "") svc0 p0 "signed.jwt" "T"
      (.obj [("access_token", .str "T")]) rfl rfl rfl rfl rfl rfl).1 (by decide),
   (send_response_status_determines_result (envSend 403 "quota exceeded") svc0 p0
      "signed.jwt" "T"
      (.obj [("access_token", .str "T")]) rfl rfl rfl rfl rfl rfl).2 (by decide)⟩

/-- Claim C5: `FcmNotificationService::new` classifies every failure —
a failed read gives `FileReadError`, syntactically invalid JSON or a
missing/mistyped `ServiceAccount` field gives `JsonParseError`, and no other
error variant (in particular neither `HttpError` nor `JwtEncodeError`) can
be returned. -/
theorem new_error_classification (r : Option (Option Json)) :
    (r = none → FcmNotificationService.new r = .error FcmError.FileReadError) ∧
    (r = some none → FcmNotificationService.new r = .error FcmError.JsonParseError) ∧
    (∀ j, r = some (some j) → deserializeServiceAccount j = none →
      FcmNotificationService.new r = .error FcmError.JsonParseError) ∧
    (∀ e, FcmNotificationService.new r = .error e →
      e = FcmError.FileReadError ∨ e = FcmError.JsonParseError) := by
  refine ⟨?_, ?_, ?_, ?_⟩
  · rintro rfl; rfl
  · rintro rfl; rfl
  · rintro j rfl hj
    simp [FcmNotificationService.new, hj]
  · intro e he
    match r with
    | none =>
      simp [FcmNotificationService.new] at he
      exact Or.inl he.symm
    | some none =>
      simp [FcmNotificationService.new] at he
      exact Or.inr he.symm
    | some (some j) =>
      cases hd : deserializeServiceAccount j with
      | none =>
        simp [FcmNotificationService.new, hd] at he
        exact Or.inr he.symm
      | some sa =>
        simp [FcmNotificationService.new, hd] at he

/-- Witness for C5: a failed read, malformed text, and a JSON document that
is not an object each map to their classified error. -/
theorem new_error_classification_witness :
    FcmNotificationService.new none = .error FcmError.FileReadError ∧
    FcmNotificationService.new (some none) = .error FcmError.JsonParseError ∧
    FcmNotificationService.new (some (some (Json.str "oops"))) =
      .error FcmError.JsonParseError :=
  ⟨(new_error_classification none).1 rfl,
   (new_error_classification (some none)).2.1 rfl,
   (new_error_classification (some (some (Json.str "oops")))).2.2.1
     (Json.str "oops") rfl rfl⟩

/-- Claim C6: for every syntactically valid JSON object whose keys are
distinct and which binds each of the eleven required keys to a string, the
Credential Loader succeeds and returns the record whose fields are exactly
those input values, with the input key `"type"` filling `account_type`. -/
theorem serviceAccount_roundtrip
    (kvs : List (String × Json))
    (ty pid kid key em cid au tu apc cxc ud : String)
    (_hnd : (kvs.map Prod.fst).Nodup)
    (h1 : kvs.lookup "type" = some (.str ty))
    (h2 : kvs.lookup "project_id" = some (.str pid))
    (h3 : kvs.lookup "private_key_id" = some (.str kid))
    (h4 : kvs.lookup "private_key" = some (.str key))
    (h5 : kvs.lookup "client_email" = some (.str em))
    (h6 : kvs.lookup "client_id" = some (.str cid))
    (h7 : kvs.lookup "auth_uri" = some (.str au))
    (h8 : kvs.lookup "token_uri" = some (.str tu))
    (h9 : kvs.lookup "auth_provider_x509_cert_url" = some (.str apc))
    (h10 : kvs.lookup "client_x509_cert_url" = some (.str cxc))
    (h11 : kvs.lookup "universe_domain" = some (.str ud)) :
    FcmNotificationService.new (some (some (.obj kvs))) =
      .ok ⟨⟨ty, pid, kid, key, em, cid, au, tu, apc, cxc, ud⟩⟩ := by
  simp [FcmNotificationService.new, deserializeServiceAccount, getStrField,
        h1, h2, h3, h4, h5, h6, h7, h8, h9, h10, h11]

/-- Witness for C6 on a concrete document (with an extra unknown key). -/
theorem serviceAccount_roundtrip_witness :
    FcmNotificationService.new (some (some (Json.obj kvs0))) =
      .ok ⟨⟨"service_account", "demo-project", "kid1", "PEMDATA",
            "svc@demo.iam.gserviceaccount.com", "123456",
            "https://accounts.google.com/o/oauth2/auth",
            "https://oauth2.googleapis.com/token", "apcurl", "cxcurl",
            "googleapis.com"⟩⟩ :=
  serviceAccount_roundtrip kvs0 "service_account" "demo-project" "kid1" "PEMDATA"
    "svc@demo.iam.gserviceaccount.com" "123456"
    "https://accounts.google.com/o/oauth2/auth"
    "https://oauth2.googleapis.com/token" "apcurl" "cxcurl" "googleapis.com"
    (by decide) rfl rfl rfl rfl rfl rfl rfl rfl rfl rfl rfl

/-- Claim C7: for every loaded account and every call instant, the assertion
claims have `iss` equal to the account's client email, `scope` equal to the
fixed messaging scope string, and `aud` equal to the fixed token endpoint
URL. -/
theorem claims_iss_scope_aud (sa : ServiceAccount) (now : ChronoTime) :
    (buildClaims sa now).iss = sa.client_email ∧
    (buildClaims sa now).scope = "https://www.googleapis.com/auth/firebase.messaging" ∧
    (buildClaims sa now).aud = "https://oauth2.googleapis.com/token" :=
  ⟨rfl, rfl, rfl⟩

/-- Claim C8: after a token exchange yielding token `tok`, the second and
last submitted request is a POST to the FCM v1 `messages:send` URL with the
account's project identifier interpolated, carrying the headers
`Authorization: Bearer tok` and `Content-Type: application/json`, and the
JSON wire body. -/
theorem send_request_shape
    (env : Env) (svc : FcmNotificationService) (p : NotificationPayload)
    (jwt tok : String) (body : Json)
    (hpem : env.rsaPemOk svc.service_account.private_key = true)
    (hsign : env.sign (buildClaims svc.service_account env.now) = some jwt)
    (hhttp : env.tokenHttpOk = true)
    (hbody : env.tokenBody = some body)
    (htok : (jsonIndex body "access_token").asStr = some tok) :
    (send_notification env svc p).1 =
      [tokenRequest jwt,
       { method := "POST"
         url := "https://fcm.googleapis.com/v1/projects/"
                  ++ svc.service_account.project_id ++ "/messages:send"
         headers := [("Authorization", "Bearer " ++ tok),
                     ("Content-Type", "application/json")]
         body := ReqBody.jsonBody (wireBody p) }] := by
  cases hsok : env.sendHttpOk <;>
    cases hst : statusIsSuccess env.sendStatus <;>
      simp [send_notification, get_access_token, sendUrl,
            hpem, hsign, hhttp, hbody, htok, hsok, hst]

/-- Witness for C8 with token `"T"` and the `sa0` project identifier. -/
theorem send_request_shape_witness :
    (send_notification (envSend 200 "") svc0 p0).1 =
      [tokenRequest "signed.jwt",
       { method := "POST"
         url := "https://fcm.googleapis.com/v1/projects/"
                  ++ svc0.service_account.project_id ++ "/messages:send"
         headers := [("Authorization", "Bearer " ++ "T"),
                     ("Content-Type", "application/json")]
         body := ReqBody.jsonBody (wireBody p0) }] :=
  send_request_shape (envSend 200 "") svc0 p0 "signed.jwt" "T"
    (.obj [("access_token", .str "T")]) rfl rfl rfl rfl rfl

/-- Claim C9: construction never validates the private key — `new` succeeds
on a well-formed credential document whatever string stands in the
`private_key` field — and a key the PEM parser rejects surfaces only at send
time, as `JwtEncodeError`, before any request is submitted. -/
theorem new_skips_key_validation
    (key : String) (env : Env) (svc : FcmNotificationService)
    (p : NotificationPayload)
    (hbad : env.rsaPemOk svc.service_account.private_key = false) :
    FcmNotificationService.new
        (some (some (mkSADoc "service_account" "demo-project" "kid1" key
          "svc@demo.iam.gserviceaccount.com" "123456" "au" "tu" "apc" "cxc"
          "googleapis.com"))) =
      .ok ⟨⟨"service_account", "demo-project", "kid1", key,
            "svc@demo.iam.gserviceaccount.com", "123456", "au", "tu", "apc",
            "cxc", "googleapis.com"⟩⟩ ∧
    send_notification env svc p = ([], .error FcmError.JwtEncodeError) := by
  constructor
  · rfl
  · simp [send_notification, get_access_token, hbad]

/-- Witness for C9: a non-PEM key string is accepted at construction and
rejected at send time. -/
theorem new_skips_key_validation_witness :
    FcmNotificationService.new
        (some (some (mkSADoc "service_account" "demo-project" "kid1"
          "NOT A PEM KEY" "svc@demo.iam.gserviceaccount.com" "123456" "au" "tu"
          "apc" "cxc" "googleapis.com"))) =
      .ok ⟨⟨"service_account", "demo-project", "kid1", "NOT A PEM KEY",
            "svc@demo.iam.gserviceaccount.com", "123456", "au", "tu", "apc",
            "cxc", "googleapis.com"⟩⟩ ∧
    send_notification envBadKey svc0 p0 = ([], .error FcmError.JwtEncodeError) :=
  new_skips_key_validation "NOT A PEM KEY" envBadKey svc0 p0 rfl

/-- Claim C10: the Credential Loader enforces field presence, not field
non-emptiness — construction succeeds for any string values of the eleven
required fields, including when all of them are the empty string. -/
theorem new_accepts_empty_fields
    (ty pid kid key em cid au tu apc cxc ud : String) :
    (FcmNotificationService.new
        (some (some (mkSADoc ty pid kid key em cid au tu apc cxc ud))) =
      .ok ⟨⟨ty, pid, kid, key, em, cid, au, tu, apc, cxc, ud⟩⟩) ∧
    (FcmNotificationService.new
        (some (some (mkSADoc "" "" "" "" "" "" "" "" "" "" ""))) =
      .ok ⟨⟨"", "", "", "", "", "", "", "", "", "", ""⟩⟩) := by
  constructor <;> rfl

end Fcm
